import Mathlib

/-!
# Verification of the `integral-payments` payment-platform core

Shallow embedding of the state logic of `src/stellar-payment-platform-0.tsx`
(the component with `loadFromJSON`, `copyToClipboard`, the two modal flags and
the wallet-connect handlers) and of the modal/connect handlers of
`src/stellar-payment-platform-1.tsx`.

Modelling conventions:
* JavaScript runtime values that flow through the component state are modelled
  by the inductive `JSValue` (JSON numbers as rationals; the code never
  produces `NaN` on these paths, so truthiness of a number is `≠ 0`).
* `JSON.parse` is an external capability: `loadFromJSONResult` receives the
  outcome of parsing the `jsonInput` text as an `Option JSValue` argument,
  `none` standing for a `JSON.parse` exception (the `catch` branch that
  alerts "Invalid JSON format"); it then performs the six property reads
  (which throw only on `null`) and hands the resulting fields to
  `loadFromJSON`, the `setPaymentData` step.
* The clipboard capability `navigator.clipboard.writeText` is likewise
  external; `copyToClipboard` receives its outcome as a `ClipboardOutcome`
  argument.  The source neither awaits nor inspects that promise.
* each `setTimeout` call (which blanks `copiedAddress` after 2000ms) is
  modelled by recording the scheduled fire time in `SessionState.timers`; `fireDueTimers now` executes
  every scheduled callback whose time has arrived (each callback sets
  `copiedAddress` to the empty string).
* `alert`/`console.log` calls are emitted as `Effect` values next to the
  (unchanged) state, never folded into the state.
-/

/-- A JavaScript/JSON runtime value, as far as the component state needs.
`undef` is the value of an absent record field; `obj` is a structured record
with its named fields in insertion order, so every possible result of
`JSON.parse` is representable. -/
inductive JSValue where
  | undef
  | null
  | bool (b : Bool)
  | num (q : ℚ)
  | str (s : String)
  | arr (elems : List JSValue)
  | obj (fields : List (String × JSValue))

/-- JavaScript truthiness for the values above (`undefined`, `null`, `false`,
`0` and `""` are falsy; every array and every object is truthy). -/
def JSValue.truthy : JSValue → Bool
  | .undef => false
  | .null => false
  | .bool b => b
  | .num q => decide (q ≠ 0)
  | .str s => decide (s ≠ "")
  | .arr _ => true
  | .obj _ => true

/-- The JavaScript `v || d` operator on the values above. -/
def jsOr (v d : JSValue) : JSValue := if v.truthy then v else d

/-- The fields `loadFromJSON` reads off the record returned by `JSON.parse`.
An absent field is `JSValue.undef`, exactly as `data.field` evaluates to
`undefined` in the source.  Unrecognized fields of the record are never read
and need no representation. -/
structure RawData where
  amount : JSValue
  xlmAddresses : JSValue
  usdcAddresses : JSValue
  denomination : JSValue
  businessName : JSValue
  description : JSValue

/-- The `paymentData` state object of `stellar-payment-platform-0.tsx`
(lines 5–12). -/
structure PaymentData where
  amount : JSValue
  xlmAddresses : JSValue
  usdcAddresses : JSValue
  denomination : JSValue
  businessName : JSValue
  description : JSValue

/-- The three-empty-slot array of empty strings the source uses both as the
initial address lists and as the fallback in `loadFromJSON`. -/
def emptySlots : JSValue := .arr [.str "", .str "", .str ""]

/-- The initial `useState` value of `paymentData` (lines 5–12). -/
def initialPaymentData : PaymentData :=
  { amount := .str ""
    xlmAddresses := emptySlots
    usdcAddresses := emptySlots
    denomination := .str ""
    businessName := .str ""
    description := .str "" }

/-- The mutable session state of `stellar-payment-platform-0.tsx`: the
`paymentData` record, the two modal flags, the `copiedAddress` feedback key,
and the pending `setTimeout` fire times (each scheduled callback sets
`copiedAddress` to the empty string).  The `jsonInput` text itself is not part of the
model: only its parse outcome reaches the state logic. -/
structure SessionState where
  paymentData : PaymentData
  showXLMModal : Bool
  showUSDCModal : Bool
  copiedAddress : String
  timers : List Nat

/-- The initial session state (all `useState` initial values, no timer
pending). -/
def initialState : SessionState :=
  { paymentData := initialPaymentData
    showXLMModal := false
    showUSDCModal := false
    copiedAddress := ""
    timers := [] }

/-- The error surfaced by the `catch` branch of `loadFromJSON` (the alert with
text Invalid JSON format); it is the counterpart in the code of the
`ValidationError::MalformedInput` of the spec. -/
inductive LoadError where
  | invalidJSONFormat
deriving DecidableEq, Repr

/-- `loadFromJSON` (lines 20–34).  `parsed` is the outcome of the try block
up to the six property reads: `none` when the block throws (a `JSON.parse`
exception, or a TypeError from reading a property of `null`), `some data` the
six field values read off the parsed value.  `loadFromJSONResult` below feeds
this function from the raw `JSON.parse` result.  On a throw the state is
untouched and the error is surfaced; otherwise `setPaymentData` replaces
`paymentData` with the field-by-field `|| default` record of the source.  No
other state field is written. -/
def loadFromJSON (parsed : Option RawData) (s : SessionState) :
    SessionState × Option LoadError :=
  match parsed with
  | none => (s, some .invalidJSONFormat)
  | some data =>
      ({ s with
          paymentData :=
            { amount := jsOr data.amount (.str "")
              xlmAddresses := jsOr data.xlmAddresses emptySlots
              usdcAddresses := jsOr data.usdcAddresses emptySlots
              denomination := jsOr data.denomination (.str "")
              businessName := jsOr data.businessName (.str "")
              description := jsOr data.description (.str "") } },
        none)

/-- JavaScript property access `v[name]`: on an object the named field
(`undefined` when missing), on `null` or `undefined` a TypeError (`none`),
and on every other value (number, boolean, string, array) `undefined` —
none of the six field names collides with a built-in property of those
types. -/
def JSValue.getField (v : JSValue) (name : String) : Option JSValue :=
  match v with
  | .null => none
  | .undef => none
  | .obj fields =>
      match fields.find? (fun p => p.1 == name) with
      | some pair => some pair.2
      | none => some JSValue.undef
  | _ => some JSValue.undef

/-- The six property reads of the try block (`data.amount`,
`data.xlmAddresses`, ...): `none` when a read throws, i.e. exactly when the
parsed value is `null` (`JSON.parse` never returns `undefined`). -/
def readFields (v : JSValue) : Option RawData :=
  match v.getField "amount", v.getField "xlmAddresses",
        v.getField "usdcAddresses", v.getField "denomination",
        v.getField "businessName", v.getField "description" with
  | some a, some x, some u, some d, some b, some e =>
      some { amount := a, xlmAddresses := x, usdcAddresses := u,
             denomination := d, businessName := b, description := e }
  | _, _, _, _, _, _ => none

/-- The all-defaults record `setPaymentData` stores when every field read
yields `undefined` (amount and the display strings default to the empty
string, the address lists to the three blank slots). -/
def defaultedPaymentData : PaymentData :=
  { amount := .str ""
    xlmAddresses := emptySlots
    usdcAddresses := emptySlots
    denomination := .str ""
    businessName := .str ""
    description := .str "" }

/-- The complete `loadFromJSON` handler over the raw outcome of
`JSON.parse(jsonInput)`: `none` models a parse exception (caught, alert);
`some v` any successfully parsed JSON value.  The six field reads on `v`
either throw (only for `null`, caught by the same `catch`) or produce the
`RawData` handed to the `setPaymentData` step. -/
def loadFromJSONResult (parseResult : Option JSValue) (s : SessionState) :
    SessionState × Option LoadError :=
  match parseResult with
  | none => (s, some .invalidJSONFormat)
  | some v =>
      match readFields v with
      | none => (s, some .invalidJSONFormat)
      | some data => loadFromJSON (some data) s

/-- The outcome of the external clipboard capability
(`navigator.clipboard.writeText`). -/
inductive ClipboardOutcome where
  | ok
  | failed
deriving DecidableEq, Repr

/-- `copyToClipboard` (lines 36–40).  The source fires
`navigator.clipboard.writeText(text)` without `await`, `.then` or `.catch`,
so `outcome` is received and discarded; then `setCopiedAddress(type)` runs
unconditionally and a `setTimeout` expiry callback is scheduled for 2000ms
later.  No `clearTimeout` exists anywhere in the source, so the
new fire time is appended without cancelling pending ones. -/
def copyToClipboard (outcome : ClipboardOutcome) (text ty : String) (now : Nat)
    (s : SessionState) : SessionState :=
  { s with copiedAddress := ty, timers := s.timers ++ [now + 2000] }

/-- Runs every scheduled `setTimeout` callback whose fire time has arrived by
`now`.  Each scheduled callback in this component blanks `copiedAddress`,
so firing any due timer blanks it; fired timers are removed. -/
def fireDueTimers (now : Nat) (s : SessionState) : SessionState :=
  if s.timers.any (fun t => t ≤ now) then
    { s with copiedAddress := "", timers := s.timers.filter (fun t => now < t) }
  else s

/-- The clipboard-feedback indicator is showing: the UI renders "Copied!" for
the entry whose key equals `copiedAddress`, and no entry matches when
`copiedAddress` is the empty string (its idle value). -/
def feedbackActive (s : SessionState) : Bool :=
  s.copiedAddress != ""

/-- The `onClick` of the "Pay with XLM" button (line 200):
`setShowXLMModal(true)`. -/
def openXLMModal (s : SessionState) : SessionState :=
  { s with showXLMModal := true }

/-- The `onClick` of the "Pay with USDC" button (line 218):
`setShowUSDCModal(true)`. -/
def openUSDCModal (s : SessionState) : SessionState :=
  { s with showUSDCModal := true }

/-- The `onClose` of the XLM `WalletModal` (line 239):
`setShowXLMModal(false)`. -/
def closeXLMModal (s : SessionState) : SessionState :=
  { s with showXLMModal := false }

/-- The `onClose` of the USDC `WalletModal` (line 248):
`setShowUSDCModal(false)`. -/
def closeUSDCModal (s : SessionState) : SessionState :=
  { s with showUSDCModal := false }

/-- `WalletModal` renders its overlay exactly when its `isOpen` prop is true
(line 57: `if (!isOpen) return null`); the XLM modal receives
`showXLMModal`. -/
def xlmModalVisible (s : SessionState) : Bool :=
  s.showXLMModal

/-- The USDC `WalletModal` receives `showUSDCModal` as `isOpen`. -/
def usdcModalVisible (s : SessionState) : Bool :=
  s.showUSDCModal

/-- `Modelled from the spec:` §3 SessionView / §8 mutual-exclusivity wording
("exactly one of the two modals is visible (never both)").  The source has no
such notion; this predicate exists only to compare the requirement of the
spec with the two independent flags of the source. -/
def specExactlyOneModalVisible (s : SessionState) : Bool :=
  xor (xlmModalVisible s) (usdcModalVisible s)

/-- An observable side effect emitted by a handler.  `consoleLog` carries the
interpolated message; the two alert effects carry the pieces the source
interpolates (the current `paymentData.amount` value and the chosen address)
rather than a rendered string, so no information is lost. -/
inductive Effect where
  | consoleLog (msg : String)
  | alertConnectStellar (amount : JSValue) (address : String)
  | alertConnectUSDC (amount : JSValue) (address : String)
  | alertWalletKit (addrPrefix : String)
  | alertWeb3 (addrPrefix : String)

/-- `connectToStellarWallet` (lines 42–47): logs and alerts, reading
`paymentData.amount`; it writes no state at all (no setter is called). -/
def connectToStellarWallet (address : String) (index : Nat) (s : SessionState) :
    SessionState × List Effect :=
  (s, [.consoleLog ("Connecting to Stellar Wallet for address: " ++ address),
       .alertConnectStellar s.paymentData.amount address])

/-- `connectToUSDCWallet` (lines 49–54): logs and alerts, reading
`paymentData.amount`; it writes no state at all. -/
def connectToUSDCWallet (address : String) (index : Nat) (s : SessionState) :
    SessionState × List Effect :=
  (s, [.consoleLog ("Connecting to USDC Wallet for address: " ++ address),
       .alertConnectUSDC s.paymentData.amount address])

/-- The session state of `stellar-payment-platform-1.tsx`: its `paymentData`
is a constant (not state), and `selectedNetwork` is initialised but never
written or read by any handler, so the mutable state reachable from the
handlers is the two modal flags. -/
structure SessionState1 where
  showXLMModal : Bool
  showUSDCModal : Bool

/-- `handleXLMPayment` (lines 29–31 of `stellar-payment-platform-1.tsx`):
`setShowXLMModal(true)`. -/
def handleXLMPayment (s : SessionState1) : SessionState1 :=
  { s with showXLMModal := true }

/-- `handleUSDCPayment` (lines 33–35 of `stellar-payment-platform-1.tsx`):
`setShowUSDCModal(true)`. -/
def handleUSDCPayment (s : SessionState1) : SessionState1 :=
  { s with showUSDCModal := true }

/-- `handleWalletConnect` (lines 37–50 of `stellar-payment-platform-1.tsx`):
logs, then alerts with the first eight characters of the address, branching on
the network string; it writes no state at all. -/
def handleWalletConnect (address network : String) (s : SessionState1) :
    SessionState1 × List Effect :=
  (s, [.consoleLog ("Connecting to " ++ network ++ " wallet for address: " ++ address)]
      ++ (if network == "stellar" then
            [Effect.alertWalletKit (address.take 8)]
          else
            [Effect.alertWeb3 (address.take 8)]))

/-- Maps an optional string field of the raw input to its JavaScript value:
an absent field is `undefined`, a present one is the string itself. -/
def optStr : Option String → JSValue
  | none => .undef
  | some s => .str s

/-- The parse result of a JSON text that carries only a denomination
(`amount` absent). -/
def rawMissingAmount : RawData :=
  { amount := .undef
    xlmAddresses := .undef
    usdcAddresses := .undef
    denomination := .str "USD"
    businessName := .undef
    description := .undef }

/-- A session that already holds a loaded request with amount 100 USD. -/
def priorLoadedState : SessionState :=
  { initialState with
      paymentData :=
        { initialPaymentData with
            amount := .str "100", denomination := .str "USD" } }

/-- The parse result of a valid request: amount 150, denomination USD, one
Stellar address, an explicitly empty USDC list, no business name, and a
description. -/
def rawValidFull : RawData :=
  { amount := .num 150
    xlmAddresses := .arr [.str "GABC"]
    usdcAddresses := .arr []
    denomination := .str "USD"
    businessName := .undef
    description := .str "Product purchase" }

/-- The parse result of a valid request with both per-network address lists
absent. -/
def rawNoAddressLists : RawData :=
  { amount := .num 150
    xlmAddresses := .undef
    usdcAddresses := .undef
    denomination := .str "USD"
    businessName := .undef
    description := .undef }

/-- The parse result of a request whose Stellar list is absent while the USDC
list is present with a single entry. -/
def rawMixedAddressLists : RawData :=
  { amount := .num 150
    xlmAddresses := .undef
    usdcAddresses := .arr [.str "0x742d"]
    denomination := .str "USD"
    businessName := .undef
    description := .undef }

/-- A valid parse result used while clipboard feedback is showing. -/
def rawValidNext : RawData :=
  { amount := .num 99
    xlmAddresses := .arr [.str "GDEF"]
    usdcAddresses := .arr []
    denomination := .str "EUR"
    businessName := .str "TechStore Solutions"
    description := .str "Premium Software License" }

/-- A session in which an address was just copied: the feedback key is set and
its expiry callback is pending. -/
def copiedFeedbackState : SessionState :=
  { initialState with copiedAddress := "XLM-0", timers := [2000] }

/-- C5 counterexample: the JSON text `5` parses without throwing to the
number 5, which is not a structured record; `load` then SUCCEEDS (no error)
and silently replaces the prior `paymentData` with the all-defaults record —
refuting the claim that every input not parseable as a structured record
fails with the malformed-input error leaving the session unchanged. -/
theorem c5_counterexample :
    (loadFromJSONResult (some (JSValue.num 5)) priorLoadedState).2 = none ∧
    (loadFromJSONResult (some (JSValue.num 5))
        priorLoadedState).1.paymentData.amount = .str "" ∧
    (loadFromJSONResult (some (JSValue.num 5))
        priorLoadedState).1.paymentData.amount
      ≠ priorLoadedState.paymentData.amount := by
  refine ⟨rfl, rfl, fun h => ?_⟩
  have h2 : JSValue.str "" = JSValue.str "100" := h
  injection h2 with h3
  exact absurd h3 (by decide)

/-- C5 amended: `load` fails with the malformed-input error and leaves the
whole session state unchanged exactly when the try block throws — on a
`JSON.parse` exception, or on parsed `null` (whose property reads throw a
TypeError caught by the same catch).  A parseable NON-record input — a
number, boolean, string or array — is not rejected: every field read yields
`undefined`, so `load` succeeds with no error and replaces `paymentData`
with the all-defaults record, while the rest of the state is unchanged. -/
theorem c5_only_parse_throw_or_null_rejected (s : SessionState) (v : JSValue)
    (h : (∃ q, v = JSValue.num q) ∨ (∃ b, v = JSValue.bool b) ∨
         (∃ t, v = JSValue.str t) ∨ (∃ xs, v = JSValue.arr xs)) :
    loadFromJSONResult none s = (s, some LoadError.invalidJSONFormat) ∧
    loadFromJSONResult (some JSValue.null) s
      = (s, some LoadError.invalidJSONFormat) ∧
    loadFromJSONResult (some v) s
      = ({ s with paymentData := defaultedPaymentData }, none) := by
  refine ⟨rfl, rfl, ?_⟩
  rcases h with ⟨q, rfl⟩ | ⟨b, rfl⟩ | ⟨t, rfl⟩ | ⟨xs, rfl⟩ <;> rfl

/-- C5 witness: the amended statement at the concrete parsed number 5, from
a session holding a previously loaded request. -/
theorem c5_only_parse_throw_or_null_rejected_witness :
    loadFromJSONResult none priorLoadedState
      = (priorLoadedState, some LoadError.invalidJSONFormat) ∧
    loadFromJSONResult (some JSValue.null) priorLoadedState
      = (priorLoadedState, some LoadError.invalidJSONFormat) ∧
    loadFromJSONResult (some (JSValue.num 5)) priorLoadedState
      = ({ priorLoadedState with paymentData := defaultedPaymentData },
          none) :=
  c5_only_parse_throw_or_null_rejected priorLoadedState (JSValue.num 5)
    (Or.inl ⟨5, rfl⟩)

/-- C10: invoking a wallet-connect handler on any address entry, in any
session state, leaves the entire session state unchanged — `paymentData`,
both modal flags, `copiedAddress` and the pending timers are identical before
and after the call; the handlers of both source files only emit log/alert
effects.  The calls are synchronous, so the result (the alert) is delivered
within the call itself and mutates nothing either. -/
theorem c10_connect_leaves_session_unchanged (address : String) (index : Nat)
    (s : SessionState) (a n : String) (s1 : SessionState1) :
    (connectToStellarWallet address index s).1 = s ∧
    (connectToUSDCWallet address index s).1 = s ∧
    (handleWalletConnect a n s1).1 = s1 :=
  ⟨rfl, rfl, rfl⟩

/-- C3: a superseded connect attempt never mutates session state.  In the
source every connect handler is synchronous and writes no state (it only logs
and alerts), so the result of a first attempt A contributes nothing: the state
after `connect(A)` then `connect(B)` equals the state after `connect(B)`
alone, and the state after A alone is already the original state — A is
discarded entirely, and the final state reflects only B. -/
theorem c3_superseded_attempt_discarded (a b : String) (i j : Nat)
    (s : SessionState) (a1 b1 n1 m1 : String) (s1 : SessionState1) :
    (connectToStellarWallet a i s).1 = s ∧
    (connectToStellarWallet b j ((connectToStellarWallet a i s).1)).1
      = (connectToStellarWallet b j s).1 ∧
    (connectToUSDCWallet b j ((connectToStellarWallet a i s).1)).1
      = (connectToUSDCWallet b j s).1 ∧
    (handleWalletConnect b1 n1 ((handleWalletConnect a1 m1 s1).1)).1
      = (handleWalletConnect b1 n1 s1).1 :=
  ⟨rfl, rfl, rfl, rfl⟩

/-- C2 counterexample: from the initial session, `openModal(stellar)` followed
by `openModal(usdc)` leaves BOTH visibility flags true — both modals render —
so the claim that exactly one of the two modals is visible (never both) is
false on the code. -/
theorem c2_counterexample :
    xlmModalVisible (openUSDCModal (openXLMModal initialState)) = true ∧
    usdcModalVisible (openUSDCModal (openXLMModal initialState)) = true ∧
    specExactlyOneModalVisible (openUSDCModal (openXLMModal initialState))
      = false :=
  ⟨rfl, rfl, rfl⟩

/-- C2 amended: the two modal flags are independent booleans and no handler
clears the other flag, so after `openModal(stellar)` then `openModal(usdc)`
both modals are visible (in both source files).  The outcome is deterministic:
both flags end true, independently of the order of the two opens. -/
theorem c2_both_modals_visible_after_two_opens (s : SessionState)
    (s1 : SessionState1) :
    (openUSDCModal (openXLMModal s)).showXLMModal = true ∧
    (openUSDCModal (openXLMModal s)).showUSDCModal = true ∧
    openUSDCModal (openXLMModal s) = openXLMModal (openUSDCModal s) ∧
    (handleUSDCPayment (handleXLMPayment s1)).showXLMModal = true ∧
    (handleUSDCPayment (handleXLMPayment s1)).showUSDCModal = true :=
  ⟨rfl, rfl, rfl, rfl, rfl⟩

/-- C9 counterexample: a copy invocation whose clipboard write fails still
creates the feedback entry — `copyToClipboard` never inspects the write
outcome — so the claim that no feedback entry is created on clipboard failure
is false on the code. -/
theorem c9_counterexample :
    feedbackActive (copyToClipboard .failed "GABC" "XLM-0" 0 initialState)
      = true ∧
    (copyToClipboard .failed "GABC" "XLM-0" 0 initialState).copiedAddress
      = "XLM-0" :=
  ⟨rfl, rfl⟩

/-- C9 amended: `copyToClipboard` sets the feedback entry and schedules its
expiry unconditionally: the result is independent of the clipboard outcome
(the source neither awaits nor handles the `writeText` promise), the feedback
key is set to the entry key, and the expiry is appended.  In particular a
feedback entry IS created on clipboard failure, and the failure is not
surfaced to the caller. -/
theorem c9_copy_ignores_clipboard_outcome (o : ClipboardOutcome)
    (text ty : String) (now : Nat) (s : SessionState) :
    copyToClipboard o text ty now s = copyToClipboard .ok text ty now s ∧
    (copyToClipboard o text ty now s).copiedAddress = ty ∧
    (copyToClipboard o text ty now s).timers = s.timers ++ [now + 2000] :=
  ⟨rfl, rfl, rfl⟩

/-- C8 counterexample: a successful load does NOT clear the clipboard
feedback: from a session whose feedback entry is active, loading a valid
request succeeds yet the feedback entry is still active afterwards, so the
claim that no clipboard-feedback entry is active after a successful load is
false on the code. -/
theorem c8_counterexample :
    (loadFromJSON (some rawValidNext) copiedFeedbackState).2 = none ∧
    feedbackActive (loadFromJSON (some rawValidNext) copiedFeedbackState).1
      = true ∧
    (loadFromJSON (some rawValidNext) copiedFeedbackState).1.copiedAddress
      = "XLM-0" :=
  ⟨rfl, rfl, rfl⟩

/-- C8 amended: a load of parseable input always succeeds and replaces
`paymentData` wholesale, but clears nothing else: `copiedAddress`, the pending
expiry timers and both modal flags survive the load unchanged (the source has
no connection-attempt state at all, so there is none to clear). -/
theorem c8_load_replaces_data_but_clears_nothing (s : SessionState)
    (data : RawData) :
    (loadFromJSON (some data) s).2 = none ∧
    (loadFromJSON (some data) s).1.copiedAddress = s.copiedAddress ∧
    (loadFromJSON (some data) s).1.timers = s.timers ∧
    (loadFromJSON (some data) s).1.showXLMModal = s.showXLMModal ∧
    (loadFromJSON (some data) s).1.showUSDCModal = s.showUSDCModal :=
  ⟨rfl, rfl, rfl, rfl, rfl⟩

/-- C1 counterexample: loading a record that is missing `amount` succeeds
(no error is produced), constructs a `paymentData` whose amount is the empty
string, and replaces the previously loaded amount — so the claim that such a
load fails with a missing-or-invalid-field error leaving the request
unchanged is false on the code, which performs no field validation. -/
theorem c1_counterexample :
    (loadFromJSON (some rawMissingAmount) priorLoadedState).2 = none ∧
    (loadFromJSON (some rawMissingAmount) priorLoadedState).1.paymentData.amount
      = .str "" ∧
    (loadFromJSON (some rawMissingAmount) priorLoadedState).1.paymentData.amount
      ≠ priorLoadedState.paymentData.amount := by
  refine ⟨rfl, rfl, fun h => ?_⟩
  have h2 : JSValue.str "" = JSValue.str "100" := h
  injection h2 with h3
  exact absurd h3 (by decide)

/-- C1 amended: for every raw input whose `amount` field is absent or
otherwise JS-falsy, `loadFromJSON` succeeds with no error and silently
defaults the stored amount to the empty string, replacing the prior
`paymentData`; the source performs no field validation, so no
missing-or-invalid-field error exists and requests with empty or non-positive
amount are constructed. -/
theorem c1_missing_amount_not_validated (s : SessionState) (data : RawData)
    (h : data.amount.truthy = false) :
    (loadFromJSON (some data) s).2 = none ∧
    (loadFromJSON (some data) s).1.paymentData.amount = .str "" := by
  refine ⟨rfl, ?_⟩
  simp [loadFromJSON, jsOr, h]

/-- C1 witness: the amended statement at the concrete missing-amount input. -/
theorem c1_missing_amount_not_validated_witness :
    (loadFromJSON (some rawMissingAmount) priorLoadedState).2 = none ∧
    (loadFromJSON (some rawMissingAmount) priorLoadedState).1.paymentData.amount
      = .str "" :=
  c1_missing_amount_not_validated priorLoadedState rawMissingAmount rfl

/-- C4 counterexample: copy at time 0, copy again at time 1000 (before the
first expiry); at time 2000 the first `setTimeout` callback fires and blanks
the feedback, even though 2000 is strictly before the second call time plus
2000ms — so the claim that a second copy before expiry cancels the pending
expiry and keeps the feedback active until second-call-time + 2000ms is false
on the code (there is no `clearTimeout`). -/
theorem c4_counterexample :
    feedbackActive (fireDueTimers 2000
      (copyToClipboard .ok "GABC" "XLM-0" 1000
        (copyToClipboard .ok "GABC" "XLM-0" 0 initialState))) = false ∧
    2000 < 1000 + 2000 :=
  ⟨rfl, by omega⟩

/-- C4 amended: a successful copy at time T makes the feedback entry active
and it stays active strictly before T + 2000ms, but a second copy before
expiry does NOT cancel the pending expiry: the feedback still becomes
inactive when the FIRST copy timer fires at T + 2000ms, because each copy
schedules an independent, uncancelled callback that unconditionally blanks
the feedback. -/
theorem c4_second_copy_does_not_extend_feedback
    (o1 o2 : ClipboardOutcome) (x1 x2 ty1 ty2 : String) (t1 t2 now : Nat)
    (s : SessionState)
    (hs : s.timers = []) (hty2 : ty2 ≠ "")
    (h12 : t1 ≤ t2) (hlt : t2 < t1 + 2000) (hnow : now < t1 + 2000) :
    feedbackActive (fireDueTimers now
      (copyToClipboard o2 x2 ty2 t2 (copyToClipboard o1 x1 ty1 t1 s)))
      = true ∧
    feedbackActive (fireDueTimers (t1 + 2000)
      (copyToClipboard o2 x2 ty2 t2 (copyToClipboard o1 x1 ty1 t1 s)))
      = false := by
  have ht :
      (copyToClipboard o2 x2 ty2 t2 (copyToClipboard o1 x1 ty1 t1 s)).timers
        = [t1 + 2000, t2 + 2000] := by
    simp [copyToClipboard, hs]
  have hc :
      (copyToClipboard o2 x2 ty2 t2
        (copyToClipboard o1 x1 ty1 t1 s)).copiedAddress = ty2 := rfl
  constructor
  · have h1 : ¬ (t1 + 2000 ≤ now) := by omega
    have h2 : ¬ (t2 + 2000 ≤ now) := by omega
    simp [fireDueTimers, ht, hc, h1, h2, feedbackActive, hty2]
  · simp [fireDueTimers, ht, hc, feedbackActive]

/-- C4 witness: the amended statement on the concrete double-copy run
(copies at 0 and 1000, observed at 1500 and at the first expiry 2000). -/
theorem c4_second_copy_does_not_extend_feedback_witness :
    feedbackActive (fireDueTimers 1500
      (copyToClipboard .ok "GABC" "XLM-0" 1000
        (copyToClipboard .ok "GABC" "XLM-0" 0 initialState))) = true ∧
    feedbackActive (fireDueTimers (0 + 2000)
      (copyToClipboard .ok "GABC" "XLM-0" 1000
        (copyToClipboard .ok "GABC" "XLM-0" 0 initialState))) = false :=
  c4_second_copy_does_not_extend_feedback .ok .ok "GABC" "GABC" "XLM-0"
    "XLM-0" 0 1000 1500 initialState rfl (by decide) (by omega) (by omega)
    (by omega)

/-- C6: for every parseable raw input whose amount is a positive number,
whose denomination is a non-empty string, whose optional display strings are
each absent or a string, and whose per-network lists are present,
`loadFromJSON` succeeds and every stored field equals the corresponding input
field after defaulting — `businessName` and `description` default to the
empty string exactly when absent. -/
theorem c6_valid_load_fields_equal_defaulted_input (s : SessionState)
    (data : RawData) (a : ℚ) (den : String) (bn ds : Option String)
    (xs us : List JSValue)
    (hamt : data.amount = .num a) (hpos : 0 < a)
    (hden : data.denomination = .str den) (hden2 : den ≠ "")
    (hbn : data.businessName = optStr bn)
    (hds : data.description = optStr ds)
    (hx : data.xlmAddresses = .arr xs)
    (hu : data.usdcAddresses = .arr us) :
    (loadFromJSON (some data) s).2 = none ∧
    (loadFromJSON (some data) s).1.paymentData.amount = data.amount ∧
    (loadFromJSON (some data) s).1.paymentData.denomination
      = data.denomination ∧
    (loadFromJSON (some data) s).1.paymentData.xlmAddresses
      = data.xlmAddresses ∧
    (loadFromJSON (some data) s).1.paymentData.usdcAddresses
      = data.usdcAddresses ∧
    (loadFromJSON (some data) s).1.paymentData.businessName
      = .str (bn.getD "") ∧
    (loadFromJSON (some data) s).1.paymentData.description
      = .str (ds.getD "") := by
  have hOpt : ∀ o : Option String,
      jsOr (optStr o) (.str "") = .str (o.getD "") := by
    intro o
    match o with
    | none => simp [optStr, jsOr, JSValue.truthy]
    | some b =>
      by_cases hb : b = ""
      · simp [optStr, jsOr, JSValue.truthy, hb]
      · simp [optStr, jsOr, JSValue.truthy, hb]
  have hA : jsOr data.amount (.str "") = data.amount := by
    simp [hamt, jsOr, JSValue.truthy, hpos.ne']
  have hD : jsOr data.denomination (.str "") = data.denomination := by
    simp [hden, jsOr, JSValue.truthy, hden2]
  have hX : jsOr data.xlmAddresses emptySlots = data.xlmAddresses := by
    simp [hx, jsOr, JSValue.truthy]
  have hU : jsOr data.usdcAddresses emptySlots = data.usdcAddresses := by
    simp [hu, jsOr, JSValue.truthy]
  refine ⟨rfl, ?_, ?_, ?_, ?_, ?_, ?_⟩ <;>
    simp [loadFromJSON, hA, hD, hX, hU, hbn, hds, hOpt]

/-- C6 witness: the statement at the concrete valid input `rawValidFull`. -/
theorem c6_valid_load_fields_equal_defaulted_input_witness :
    (loadFromJSON (some rawValidFull) initialState).2 = none ∧
    (loadFromJSON (some rawValidFull) initialState).1.paymentData.amount
      = rawValidFull.amount ∧
    (loadFromJSON (some rawValidFull) initialState).1.paymentData.denomination
      = rawValidFull.denomination ∧
    (loadFromJSON (some rawValidFull) initialState).1.paymentData.xlmAddresses
      = rawValidFull.xlmAddresses ∧
    (loadFromJSON (some rawValidFull) initialState).1.paymentData.usdcAddresses
      = rawValidFull.usdcAddresses ∧
    (loadFromJSON (some rawValidFull) initialState).1.paymentData.businessName
      = .str ((none : Option String).getD "") ∧
    (loadFromJSON (some rawValidFull) initialState).1.paymentData.description
      = .str ((some "Product purchase" : Option String).getD "") :=
  c6_valid_load_fields_equal_defaulted_input initialState rawValidFull 150
    "USD" none (some "Product purchase") [.str "GABC"] [] rfl (by norm_num)
    rfl (by decide) rfl rfl rfl rfl

/-- C7 counterexample: loading a record with both per-network lists absent
stores the three-blank-slot array for the Stellar network, which is not the
empty sequence — so the claim that an absent address-list field loads as the
empty sequence is false on the code. -/
theorem c7_counterexample :
    (loadFromJSON (some rawNoAddressLists)
        initialState).1.paymentData.xlmAddresses
      = JSValue.arr [.str "", .str "", .str ""] ∧
    JSValue.arr [.str "", .str "", .str ""] ≠ JSValue.arr [] := by
  refine ⟨rfl, fun h => ?_⟩
  injection h with h2
  simp at h2

/-- C7 amended: when a per-network address-list field is absent the loaded
list for that network defaults to the fixed three-blank-slot array of empty
strings (not the empty sequence); when a list is present it is stored as-is,
so empty-string entries are retained and insertion order and numbering are
preserved. -/
theorem c7_absent_list_defaults_to_three_blank_slots (s : SessionState)
    (data : RawData) (us : List JSValue)
    (hx : data.xlmAddresses = .undef) (hu : data.usdcAddresses = .arr us) :
    (loadFromJSON (some data) s).1.paymentData.xlmAddresses
      = JSValue.arr [.str "", .str "", .str ""] ∧
    (loadFromJSON (some data) s).1.paymentData.usdcAddresses = .arr us := by
  constructor <;>
    simp [loadFromJSON, jsOr, JSValue.truthy, hx, hu, emptySlots]

/-- C7 witness: the amended statement at the concrete input whose Stellar
list is absent and whose USDC list holds one entry. -/
theorem c7_absent_list_defaults_to_three_blank_slots_witness :
    (loadFromJSON (some rawMixedAddressLists)
        initialState).1.paymentData.xlmAddresses
      = JSValue.arr [.str "", .str "", .str ""] ∧
    (loadFromJSON (some rawMixedAddressLists)
        initialState).1.paymentData.usdcAddresses
      = .arr [.str "0x742d"] :=
  c7_absent_list_defaults_to_three_blank_slots initialState
    rawMixedAddressLists [.str "0x742d"] rfl rfl
